import Mathlib

/-!
Shallow embedding of `5.EasyTargetScan_0.2.py` (EasyTargetScan): a batch
orchestrator that extracts miRNA seed substrings, invokes an external
predictor per UTR record, parses its tabular output into visual features,
and renders one diagram per target.

Strings are modelled as `List Char`.  Python string operations used by the
script (`str.strip`, `str.split("\t")`, slicing, `int(...)`, `re.sub`) are
given faithful total/optional Lean counterparts below.  The external world
(the predictor subprocess, the filesystem) is modelled by explicit oracles
passed as arguments.
-/

/-- Python string slice s[a:b] for nonnegative bounds: the characters at
indices a ≤ i < min b (length s).  Total: out-of-range bounds clamp, they
never raise (in particular slicing never raises IndexError). -/
def pySlice (s : List Char) (a b : Nat) : List Char :=
  (s.take b).drop a

/-- The six ASCII whitespace characters removed by Python str.strip()
(space, tab, newline, carriage return, vertical tab, form feed). -/
def pyIsSpace (c : Char) : Bool :=
  c = ' ' || c = '\t' || c = '\n' || c = '\r' || c.toNat = 11 || c.toNat = 12

/-- Python str.strip(): drop leading and trailing whitespace. -/
def pyStrip (s : List Char) : List Char :=
  ((s.dropWhile pyIsSpace).reverse.dropWhile pyIsSpace).reverse

/-- Python str.split("\t"): split on every tab, keeping empty fields;
the empty string yields one empty field. -/
def splitTab : List Char → List (List Char)
  | [] => [[]]
  | c :: rest =>
    if c = '\t' then [] :: splitTab rest
    else
      match splitTab rest with
      | f :: fs => (c :: f) :: fs
      | [] => [[c]]

/-- Digit run of a Python int literal: decimal digits, with single
underscores allowed only between digits (Python 3 grouping). -/
def pyDigitsAux : Nat → List Char → Option Nat
  | acc, [] => some acc
  | _, ['_'] => none
  | acc, '_' :: c :: rest =>
    if c.isDigit then pyDigitsAux (acc * 10 + (c.toNat - 48)) rest else none
  | acc, c :: rest =>
    if c.isDigit then pyDigitsAux (acc * 10 + (c.toNat - 48)) rest else none

/-- Nonempty digit run (no leading underscore). -/
def pyDigits : List Char → Option Nat
  | [] => none
  | c :: rest =>
    if c.isDigit then pyDigitsAux (c.toNat - 48) rest else none

/-- Python int(str): strips whitespace, allows one leading sign directly
followed by digits; any other shape raises ValueError, modelled as none. -/
def pyInt (s : List Char) : Option Int :=
  match pyStrip s with
  | '-' :: rest => (pyDigits rest).map (fun n => -(n : Int))
  | '+' :: rest => (pyDigits rest).map (fun n => (n : Int))
  | l => (pyDigits l).map (fun n => (n : Int))

/-- Python re.sub(r'mmu-', '', s): remove every non-overlapping
occurrence of "mmu-", scanning left to right. -/
def subMmu : List Char → List Char
  | 'm' :: 'm' :: 'u' :: '-' :: rest => subMmu rest
  | c :: rest => c :: subMmu rest
  | [] => []

/-- Characters kept by the sanitizer regex class [a-zA-Z0-9_-]. -/
def allowedChar (c : Char) : Bool :=
  ('a' ≤ c && c ≤ 'z') || ('A' ≤ c && c ≤ 'Z') || ('0' ≤ c && c ≤ '9') ||
    c = '_' || c = '-'

/-- Python re.sub(r'[^a-zA-Z0-9_-]', '_', s): replace every character
outside the allowed class with an underscore (line 69 of the script,
producing clean_utr_id). -/
def sanitize (s : List Char) : List Char :=
  s.map (fun c => if allowedChar c then c else '_')

/-- A FASTA record as yielded by SeqIO.parse: an identifier and a
nucleotide sequence. -/
structure FastaRecord where
  id : List Char
  seq : List Char
deriving DecidableEq, Repr

/-- seed_size, hardcoded to 7 in main (line 44). -/
def seed_size : Nat := 7

/-- slen = seed_size + 1 (line 51). -/
def slen : Nat := seed_size + 1

/-- One line of the seed table miR_seeds_temp.txt written for a miRNA
record (line 55): id, tab, str(miR.seq)[1:slen], tab, taxon, newline.
The except-IndexError branch of the source (lines 56-58) is unreachable,
because Python string slicing never raises IndexError; hence every
record, however short, produces a line. -/
def seedLine (taxon : Int) (miR : FastaRecord) : List Char :=
  miR.id ++ '\t' :: (pySlice miR.seq 1 slen ++ '\t' :: ((toString taxon).data ++ ['\n']))

/-- The whole seed table written by the loop at lines 50-58: one line per
miRNA record of the input stream, in stream order. -/
def seedTable (taxon : Int) (miRs : List FastaRecord) : List (List Char) :=
  miRs.map (seedLine taxon)

/-- get_color (lines 157-163): exact lookup in a fixed four-entry table,
with "#ccccff" as the .get default for any other key.  Total on strings;
the Python dict .get never raises. -/
def get_color (seed_match_type : List Char) : List Char :=
  if seed_match_type = "6mer".data then "#00ff99".data
  else if seed_match_type = "7mer-1a".data then "#9999ff".data
  else if seed_match_type = "7mer-m8".data then "#ff66cc".data
  else if seed_match_type = "8mer-1a".data then "#ff0000".data
  else "#ccccff".data

/-- GraphicFeature as constructed at lines 109-117 of the script (the
fields the script sets; end is spelled end_ because end is reserved). -/
structure GraphicFeature where
  start : Int
  end_ : Int
  strand : Int
  color : List Char
  label : List Char
deriving DecidableEq, Repr

/-- One data line of the predictor output (lines 106-120): strip the line,
split on tabs, then build a feature from int(content[3]), int(content[4]),
strand +1, get_color(content[8]) and content[1] with "mmu-" stripped.  Any
IndexError (too few columns) or ValueError (non-integer coordinate) inside
the try body is caught and the row yields no feature, so the result is an
Option: none exactly when the source's per-line except branch fires. -/
def parseRow (line : List Char) : Option GraphicFeature := do
  let content := splitTab (pyStrip line)
  let c3 ← content.get? 3
  let s ← pyInt c3
  let c4 ← content.get? 4
  let e ← pyInt c4
  let c8 ← content.get? 8
  let c1 ← content.get? 1
  some { start := s, end_ := e, strand := 1, color := get_color c8,
         label := subMmu c1 }

/-- The for-line loop at lines 106-120 over the data lines (header already
consumed): features appended in file order; a line whose parse fails
contributes no feature and prints one diagnostic message instead
(the source prints the stripped line followed by the exception text; the
exception text itself is not modelled). -/
def parseLines : List (List Char) → List GraphicFeature × List (List Char)
  | [] => ([], [])
  | line :: rest =>
    let r := parseLines rest
    match parseRow line with
    | some f => (f :: r.1, r.2)
    | none => (r.1, ("解析行错误: ".data ++ pyStrip line) :: r.2)

/-- The exceptions that the embedding distinguishes: StopIteration is what
next(fp) raises on an already-exhausted file iterator (line 105 on an
empty output file); it is an ordinary Exception subclass, caught by the
per-target handler at line 143. -/
inductive PyErr where
  | stopIteration
deriving DecidableEq, Repr

/-- Lines 104-120: open the output file, next(fp) skips the header — on a
zero-line file this raises StopIteration — then parse the remaining lines.
Returns the features and the per-line diagnostics. -/
def readFeatures (fileLines : List (List Char)) :
    Except PyErr (List GraphicFeature × List (List Char)) :=
  match fileLines with
  | [] => Except.error PyErr.stopIteration
  | _ :: rest => Except.ok (parseLines rest)

/-- What the external predictor run looks like to one job, abstracted as
an oracle: the process return code, its merged stdout/stderr text, whether
the declared output file exists afterwards, and that file's lines. -/
structure ExtOutcome where
  returncode : Int
  stdout : List Char
  outputExists : Bool
  outputLines : List (List Char)

/-- How one target record ended: filtered out by the length-20 check,
aborted on a nonzero predictor exit, aborted on a missing output file,
failed inside the per-target try (StopIteration from next(fp)), or done
with an image written. -/
inductive JobResult where
  | skippedShort
  | predictorFailed
  | missingOutput
  | failedStopIteration
  | done
deriving DecidableEq, Repr

/-- Observable effects of processing one target record: the line written
to UTRs_temp.txt (none when never written), whether the predictor process
was launched, the console messages printed, the parsed feature list (none
when parsing never completed), the image file saved, and whether log_error
appended to the persistent error log. -/
structure JobEffects where
  targetLine : Option (List Char)
  invokedPredictor : Bool
  console : List (List Char)
  features : Option (List GraphicFeature)
  imageFile : Option (List Char)
  loggedError : Bool
  result : JobResult

/-- The single row written to UTRs_temp.txt for a target (line 74):
id, tab, taxon, tab, full sequence, newline. -/
def targetLineOf (taxon : Int) (utr : FastaRecord) : List Char :=
  utr.id ++ '\t' :: ((toString taxon).data ++ '\t' :: (utr.seq ++ ['\n']))

/-- Console message printed when a short UTR is filtered (line 65). -/
def skipMsg (utr : FastaRecord) : List Char :=
  "跳过短UTR序列: ".data ++ utr.id ++ " (长度=".data ++
    (toString utr.seq.length).data ++ ")".data

/-- Console message printed on a nonzero predictor exit (line 92). -/
def perlFailMsg (rc : Int) : List Char :=
  "错误: Perl执行失败 (返回码=".data ++ (toString rc).data ++ ")".data

/-- Console message printed when the declared output file is absent
(line 99). -/
def missingMsg (output_file_utr : List Char) : List Char :=
  "严重错误: 未生成输出文件 ".data ++ output_file_utr

/-- The body of the per-target loop (lines 62-145) for one UTR record,
with the external run supplied as an oracle.  Mirrors the source order:
length filter, id sanitization, temp-file write, subprocess, return-code
check, output-file check, header skip and parse, then the diagram save;
the per-target except-Exception handler turns an escaped StopIteration
into a log_error call and a continue. -/
def processUTR (taxon : Int) (output_file : List Char) (outcome : ExtOutcome)
    (utr : FastaRecord) : JobEffects :=
  if utr.seq.length < 20 then
    { targetLine := none, invokedPredictor := false, console := [skipMsg utr],
      features := none, imageFile := none, loggedError := false,
      result := JobResult.skippedShort }
  else
    let clean_utr_id := sanitize utr.id
    let output_file_utr := clean_utr_id ++ '_' :: output_file
    let cmd := "perl targetscan_70.pl miR_seeds_temp.txt UTRs_temp.txt ".data ++
      output_file_utr
    let header := ["\n正在处理UTR: ".data ++ utr.id, "执行命令: ".data ++ cmd]
    if outcome.returncode ≠ 0 then
      { targetLine := some (targetLineOf taxon utr), invokedPredictor := true,
        console := header ++ [perlFailMsg outcome.returncode, "错误日志:".data,
          outcome.stdout],
        features := none, imageFile := none, loggedError := false,
        result := JobResult.predictorFailed }
    else if outcome.outputExists = false then
      { targetLine := some (targetLineOf taxon utr), invokedPredictor := true,
        console := header ++ [missingMsg output_file_utr],
        features := none, imageFile := none, loggedError := false,
        result := JobResult.missingOutput }
    else
      match readFeatures outcome.outputLines with
      | Except.error PyErr.stopIteration =>
        { targetLine := some (targetLineOf taxon utr), invokedPredictor := true,
          console := header, features := none, imageFile := none,
          loggedError := true, result := JobResult.failedStopIteration }
      | Except.ok (fs, diags) =>
        { targetLine := some (targetLineOf taxon utr), invokedPredictor := true,
          console := header ++ diags, features := some fs,
          imageFile := some (output_file_utr ++ ".png".data),
          loggedError := false, result := JobResult.done }

/-- The whole UTR loop (lines 61-145): each record is processed to a
JobEffects value and the loop continues with the next record, whatever a
single job's outcome was. -/
def runBatch (taxon : Int) (output_file : List Char)
    (oracle : FastaRecord → ExtOutcome) (utrs : List FastaRecord) :
    List JobEffects :=
  utrs.map (fun u => processUTR taxon output_file (oracle u) u)

/-- temp_files (line 149). -/
def temp_files : List (List Char) :=
  ["miR_seeds_temp.txt".data, "UTRs_temp.txt".data]

/-- Console message printed when removing a temp file fails (line 155;
the exception text itself is not modelled). -/
def cleanupFailMsg (f : List Char) : List Char :=
  "清理临时文件失败: ".data ++ f

/-- The cleanup loop in the finally block (lines 148-155): for each temp
file that exists, attempt removal; a failing removal prints a message and
is never re-raised.  The filesystem is a predicate saying which paths
exist, and removeOk is an oracle saying which removals succeed.  Returns
the filesystem afterwards and the printed failure messages. -/
def cleanup (removeOk : List Char → Bool) (fs : List Char → Bool) :
    (List Char → Bool) × List (List Char) :=
  temp_files.foldl
    (fun st f =>
      if st.1 f then
        if removeOk f then (fun g => if g = f then false else st.1 g, st.2)
        else (st.1, st.2 ++ [cleanupFailMsg f])
      else st)
    (fs, [])

/-- The try/finally shape of main (lines 40-155): whatever the try body
produced — a normal batch result, or an exception escaping the iteration
itself — the finally block runs cleanup on the current filesystem, and the
body's outcome is passed through unchanged. -/
def orchestrate (body : Except PyErr (List JobEffects))
    (removeOk : List Char → Bool) (fs : List Char → Bool) :
    Except PyErr (List JobEffects) × ((List Char → Bool) × List (List Char)) :=
  (body, cleanup removeOk fs)

/-- Sample target record below the length-20 filter (4 nucleotides). -/
def shortUTR : FastaRecord :=
  { id := "u1".data, seq := "ACGT".data }

/-- Sample target record above the length-20 filter (25 nucleotides),
with characters in its id that the sanitizer must replace. -/
def longUTR : FastaRecord :=
  { id := "gene one|v2".data, seq := "ACGTACGTACGTACGTACGTACGTA".data }

/-- Sample predictor run that exits with status 2. -/
def failedRun : ExtOutcome :=
  { returncode := 2, stdout := "Can't locate Bio/SeqIO.pm".data,
    outputExists := false, outputLines := [] }

/-- Sample predictor run that exits 0 but leaves an empty output file. -/
def emptyRun : ExtOutcome :=
  { returncode := 0, stdout := [], outputExists := true, outputLines := [] }

/-- Sample oracle giving every record the empty-output run. -/
def emptyOracle : FastaRecord → ExtOutcome := fun _ => emptyRun

/-- Dropping the head of an (n+1)-prefix is the n-prefix of the tail:
the list form of s[1:n+1] = (s from index 1), first n characters. -/
theorem take_succ_drop_one (l : List Char) (n : Nat) :
    (l.take (n + 1)).drop 1 = (l.drop 1).take n := by
  cases l <;> simp

/-- C1: fails on the code — the claim says a miRNA record shorter than
seed_size+1 is skipped and no seed-table row is written for it, but the
except-IndexError branch at lines 56-58 is unreachable (Python slicing
never raises IndexError), so the record "m1" with the 5-character
sequence "ACGUA" (5 < slen = 8) still gets a row, with the truncated
4-character seed "CGUA". -/
theorem seedTable_short_record_not_skipped :
    ("ACGUA".data.length < slen) ∧
    seedTable 10090 [{ id := "m1".data, seq := "ACGUA".data }] =
      ["m1\tCGUA\t10090\n".data] := by decide

/-- C2: every miRNA record yields exactly one seed-table row, in stream
order, and for a record whose sequence has length at least slen = 8 the
row is id, tab, the substring from index 1 up to (excluding) index
seed_size+1, tab, taxon, newline. -/
theorem seedTable_long_record_row (taxon : Int) (miRs : List FastaRecord) :
    (seedTable taxon miRs).length = miRs.length ∧
    ∀ i : Nat, ∀ r : FastaRecord, miRs.get? i = some r →
      slen ≤ r.seq.length →
      (seedTable taxon miRs).get? i =
        some (r.id ++ '\t' ::
          ((r.seq.drop 1).take seed_size ++ '\t' ::
            ((toString taxon).data ++ ['\n']))) := by
  constructor
  · simp [seedTable]
  · intro i r hr _
    have hmap : (seedTable taxon miRs).get? i =
        Option.map (seedLine taxon) (miRs.get? i) := by
      simp [seedTable]
    rw [hmap, hr]
    show some (seedLine taxon r) = _
    refine congrArg some ?_
    rw [seedLine, pySlice, show slen = seed_size + 1 from rfl,
      take_succ_drop_one]

/-- C2 witness: the theorem instantiated on one 23-nucleotide record. -/
theorem seedTable_long_record_row_witness :
    (seedTable 10090 [{ id := "mmu-miR-1".data,
                        seq := "UGGAAUGUAAAGAAGUAUGUAUU".data }]).get? 0 =
      some ("mmu-miR-1".data ++ '\t' ::
        (("UGGAAUGUAAAGAAGUAUGUAUU".data.drop 1).take seed_size ++ '\t' ::
          ((toString (10090 : Int)).data ++ ['\n']))) :=
  (seedTable_long_record_row 10090
    [{ id := "mmu-miR-1".data, seq := "UGGAAUGUAAAGAAGUAUGUAUU".data }]).2
    0 _ rfl (by decide)

/-- C8: get_color is total on strings and never raises: each of the four
known match types maps to its fixed table color, and every other string
maps to the default fallback color "#ccccff". -/
theorem get_color_total :
    get_color "6mer".data = "#00ff99".data ∧
    get_color "7mer-1a".data = "#9999ff".data ∧
    get_color "7mer-m8".data = "#ff66cc".data ∧
    get_color "8mer-1a".data = "#ff0000".data ∧
    ∀ s : List Char, s ≠ "6mer".data → s ≠ "7mer-1a".data →
      s ≠ "7mer-m8".data → s ≠ "8mer-1a".data →
      get_color s = "#ccccff".data := by
  refine ⟨by decide, by decide, by decide, by decide, ?_⟩
  intro s h1 h2 h3 h4
  simp [get_color, h1, h2, h3, h4]

/-- C8 witness: an unknown match type gets the fallback color. -/
theorem get_color_total_witness :
    get_color "9mer".data = "#ccccff".data :=
  get_color_total.2.2.2.2 "9mer".data (by decide) (by decide) (by decide)
    (by decide)

/-- C9: sanitization is idempotent, and a string made only of allowed
characters is returned unchanged. -/
theorem sanitize_idempotent :
    (∀ s : List Char, sanitize (sanitize s) = sanitize s) ∧
    (∀ s : List Char, (∀ c ∈ s, allowedChar c = true) → sanitize s = s) := by
  constructor
  · intro s
    induction s with
    | nil => rfl
    | cons c cs ih =>
      have h1 : ∀ (d : Char) (ds : List Char),
          sanitize (d :: ds) =
            (if allowedChar d = true then d else '_') :: sanitize ds :=
        fun d ds => rfl
      rw [h1, h1, ih]
      refine congrArg (· :: sanitize cs) ?_
      by_cases h : allowedChar c = true <;> simp [h]
  · intro s
    induction s with
    | nil => intro _; rfl
    | cons c cs ih =>
      intro hs
      have hc : allowedChar c = true := hs c (List.mem_cons_self c cs)
      have h1 : sanitize (c :: cs) =
          (if allowedChar c = true then c else '_') :: sanitize cs := rfl
      rw [h1, if_pos hc, ih fun d hd => hs d (List.mem_cons_of_mem c hd)]

/-- C9 witness: idempotence on an identifier with illegal characters, and
invariance on an already-clean identifier. -/
theorem sanitize_idempotent_witness :
    sanitize (sanitize "NM_001.2|tp53".data) = sanitize "NM_001.2|tp53".data ∧
    sanitize "NM_001_2_tp53-x".data = "NM_001_2_tp53-x".data :=
  ⟨sanitize_idempotent.1 "NM_001.2|tp53".data,
   sanitize_idempotent.2 "NM_001_2_tp53-x".data (by decide)⟩

/-- C3: a target record shorter than 20 nucleotides is skipped before any
work happens: no target-table line is written, the predictor process is
not launched, no image is saved, the record's result is skippedShort, and
the batch continues with the records around it. -/
theorem processUTR_short_skipped (taxon : Int) (output_file : List Char)
    (oracle : FastaRecord → ExtOutcome) (outcome : ExtOutcome)
    (utr : FastaRecord) (pre post : List FastaRecord)
    (h : utr.seq.length < 20) :
    (processUTR taxon output_file outcome utr).targetLine = none ∧
    (processUTR taxon output_file outcome utr).invokedPredictor = false ∧
    (processUTR taxon output_file outcome utr).imageFile = none ∧
    (processUTR taxon output_file outcome utr).features = none ∧
    (processUTR taxon output_file outcome utr).result =
      JobResult.skippedShort ∧
    runBatch taxon output_file oracle (pre ++ utr :: post) =
      runBatch taxon output_file oracle pre ++
        processUTR taxon output_file (oracle utr) utr ::
          runBatch taxon output_file oracle post := by
  refine ⟨?_, ?_, ?_, ?_, ?_, ?_⟩ <;> simp [processUTR, runBatch, h]

/-- C3 witness: the short-record conclusions at a concrete 4-nucleotide
record inside a two-record batch. -/
theorem processUTR_short_skipped_witness :
    (processUTR 10090 "test_EasyTargetScan".data emptyRun shortUTR).targetLine
        = none ∧
    (processUTR 10090 "test_EasyTargetScan".data emptyRun
        shortUTR).invokedPredictor = false ∧
    (processUTR 10090 "test_EasyTargetScan".data emptyRun shortUTR).imageFile
        = none ∧
    (processUTR 10090 "test_EasyTargetScan".data emptyRun shortUTR).features
        = none ∧
    (processUTR 10090 "test_EasyTargetScan".data emptyRun shortUTR).result =
      JobResult.skippedShort ∧
    runBatch 10090 "test_EasyTargetScan".data emptyOracle
        ([] ++ shortUTR :: [longUTR]) =
      runBatch 10090 "test_EasyTargetScan".data emptyOracle [] ++
        processUTR 10090 "test_EasyTargetScan".data (emptyOracle shortUTR)
            shortUTR ::
          runBatch 10090 "test_EasyTargetScan".data emptyOracle [longUTR] :=
  processUTR_short_skipped 10090 "test_EasyTargetScan".data emptyOracle
    emptyRun shortUTR [] [longUTR] (by decide)

/-- C4: when the predictor exits nonzero, or exits zero without producing
the declared output file, the job is aborted before parsing: no feature
list, no image, no error-log entry; the result marks which failure it was;
on a nonzero exit the captured stdout is printed, on a missing file the
missing-file message is printed; and the batch continues with the records
around the failed one. -/
theorem processUTR_toolFailure_aborts (taxon : Int) (output_file : List Char)
    (oracle : FastaRecord → ExtOutcome) (outcome : ExtOutcome)
    (utr : FastaRecord) (pre post : List FastaRecord)
    (h20 : ¬ utr.seq.length < 20)
    (hfail : outcome.returncode ≠ 0 ∨ outcome.outputExists = false) :
    (processUTR taxon output_file outcome utr).features = none ∧
    (processUTR taxon output_file outcome utr).imageFile = none ∧
    (processUTR taxon output_file outcome utr).loggedError = false ∧
    ((processUTR taxon output_file outcome utr).result =
        JobResult.predictorFailed ∨
      (processUTR taxon output_file outcome utr).result =
        JobResult.missingOutput) ∧
    (outcome.returncode ≠ 0 →
      outcome.stdout ∈ (processUTR taxon output_file outcome utr).console) ∧
    (outcome.returncode = 0 → outcome.outputExists = false →
      missingMsg (sanitize utr.id ++ '_' :: output_file) ∈
        (processUTR taxon output_file outcome utr).console) ∧
    runBatch taxon output_file oracle (pre ++ utr :: post) =
      runBatch taxon output_file oracle pre ++
        processUTR taxon output_file (oracle utr) utr ::
          runBatch taxon output_file oracle post := by
  by_cases hrc : outcome.returncode = 0
  · have hex : outcome.outputExists = false := by
      rcases hfail with h | h
      · exact absurd hrc h
      · exact h
    refine ⟨?_, ?_, ?_, ?_, ?_, ?_, ?_⟩ <;>
      simp [processUTR, runBatch, h20, hrc, hex]
  · refine ⟨?_, ?_, ?_, ?_, ?_, ?_, ?_⟩ <;>
      simp [processUTR, runBatch, h20, hrc]

/-- C4 witness: the abort conclusions at a concrete long record whose
predictor run exits with status 2. -/
theorem processUTR_toolFailure_aborts_witness :
    (processUTR 10090 "test_EasyTargetScan".data failedRun longUTR).features
        = none ∧
    (processUTR 10090 "test_EasyTargetScan".data failedRun longUTR).imageFile
        = none ∧
    (processUTR 10090 "test_EasyTargetScan".data failedRun
        longUTR).loggedError = false ∧
    ((processUTR 10090 "test_EasyTargetScan".data failedRun longUTR).result =
        JobResult.predictorFailed ∨
      (processUTR 10090 "test_EasyTargetScan".data failedRun longUTR).result =
        JobResult.missingOutput) ∧
    (failedRun.returncode ≠ 0 →
      failedRun.stdout ∈
        (processUTR 10090 "test_EasyTargetScan".data failedRun
          longUTR).console) ∧
    (failedRun.returncode = 0 → failedRun.outputExists = false →
      missingMsg (sanitize longUTR.id ++ '_' :: "test_EasyTargetScan".data) ∈
        (processUTR 10090 "test_EasyTargetScan".data failedRun
          longUTR).console) ∧
    runBatch 10090 "test_EasyTargetScan".data (fun _ => failedRun)
        ([shortUTR] ++ longUTR :: []) =
      runBatch 10090 "test_EasyTargetScan".data (fun _ => failedRun)
          [shortUTR] ++
        processUTR 10090 "test_EasyTargetScan".data
            ((fun _ => failedRun) longUTR) longUTR ::
          runBatch 10090 "test_EasyTargetScan".data (fun _ => failedRun) [] :=
  processUTR_toolFailure_aborts 10090 "test_EasyTargetScan".data
    (fun _ => failedRun) failedRun longUTR [shortUTR] []
    (by decide) (Or.inl (by decide))

/-- C10: when the predictor exits 0 and its output file exists but has
zero lines, next(fp) raises StopIteration, the per-target handler logs the
job to the error log, no image is produced, the result marks the failure,
and the batch continues with the records around it. -/
theorem processUTR_emptyOutput_jobFails (taxon : Int) (output_file : List Char)
    (oracle : FastaRecord → ExtOutcome) (outcome : ExtOutcome)
    (utr : FastaRecord) (pre post : List FastaRecord)
    (h20 : ¬ utr.seq.length < 20) (hrc : outcome.returncode = 0)
    (hex : outcome.outputExists = true) (hempty : outcome.outputLines = []) :
    readFeatures outcome.outputLines = Except.error PyErr.stopIteration ∧
    (processUTR taxon output_file outcome utr).loggedError = true ∧
    (processUTR taxon output_file outcome utr).imageFile = none ∧
    (processUTR taxon output_file outcome utr).features = none ∧
    (processUTR taxon output_file outcome utr).result =
      JobResult.failedStopIteration ∧
    runBatch taxon output_file oracle (pre ++ utr :: post) =
      runBatch taxon output_file oracle pre ++
        processUTR taxon output_file (oracle utr) utr ::
          runBatch taxon output_file oracle post := by
  refine ⟨?_, ?_, ?_, ?_, ?_, ?_⟩ <;>
    simp [processUTR, readFeatures, runBatch, h20, hrc, hex, hempty]

/-- C10 witness: the empty-output conclusions at a concrete long record
whose predictor run leaves a zero-line output file. -/
theorem processUTR_emptyOutput_jobFails_witness :
    readFeatures emptyRun.outputLines = Except.error PyErr.stopIteration ∧
    (processUTR 10090 "test_EasyTargetScan".data emptyRun
        longUTR).loggedError = true ∧
    (processUTR 10090 "test_EasyTargetScan".data emptyRun longUTR).imageFile
        = none ∧
    (processUTR 10090 "test_EasyTargetScan".data emptyRun longUTR).features
        = none ∧
    (processUTR 10090 "test_EasyTargetScan".data emptyRun longUTR).result =
      JobResult.failedStopIteration ∧
    runBatch 10090 "test_EasyTargetScan".data emptyOracle
        ([] ++ longUTR :: [shortUTR]) =
      runBatch 10090 "test_EasyTargetScan".data emptyOracle [] ++
        processUTR 10090 "test_EasyTargetScan".data (emptyOracle longUTR)
            longUTR ::
          runBatch 10090 "test_EasyTargetScan".data emptyOracle [shortUTR] :=
  processUTR_emptyOutput_jobFails 10090 "test_EasyTargetScan".data
    emptyOracle emptyRun longUTR [] [shortUTR]
    (by decide) rfl rfl rfl

/-- C5: whatever outcome the try body reached — normal completion or an
exception escaping iteration — the finally block passes the outcome
through unchanged while, for each of the two shared temp files, attempting
removal when it exists: if both removals succeed both files are absent
afterwards, and a failing removal is reported with the cleanup message
rather than raised. -/
theorem orchestrate_cleanup (body : Except PyErr (List JobEffects))
    (removeOk : List Char → Bool) (fs : List Char → Bool) :
    (orchestrate body removeOk fs).1 = body ∧
    (∀ f, f ∈ temp_files → removeOk f = true →
      (orchestrate body removeOk fs).2.1 f = false) ∧
    (∀ f, f ∈ temp_files → fs f = true → removeOk f = false →
      cleanupFailMsg f ∈ (orchestrate body removeOk fs).2.2) := by
  have hba : ("UTRs_temp.txt".data = "miR_seeds_temp.txt".data) = False := by
    decide
  have hab : ("miR_seeds_temp.txt".data = "UTRs_temp.txt".data) = False := by
    decide
  refine ⟨rfl, ?_, ?_⟩
  · intro f hf hok
    simp only [temp_files, List.mem_cons, List.not_mem_nil, or_false] at hf
    rcases hf with rfl | rfl <;>
      · simp only [orchestrate, cleanup, temp_files, List.foldl]
        by_cases h1 : fs "miR_seeds_temp.txt".data <;>
          by_cases h2 : fs "UTRs_temp.txt".data <;>
            by_cases h3 : removeOk "miR_seeds_temp.txt".data <;>
              by_cases h4 : removeOk "UTRs_temp.txt".data <;>
                simp_all [hba, hab]
  · intro f hf hfs hok
    simp only [temp_files, List.mem_cons, List.not_mem_nil, or_false] at hf
    rcases hf with rfl | rfl <;>
      · simp only [orchestrate, cleanup, temp_files, List.foldl]
        by_cases h1 : fs "miR_seeds_temp.txt".data <;>
          by_cases h2 : fs "UTRs_temp.txt".data <;>
            by_cases h3 : removeOk "miR_seeds_temp.txt".data <;>
              by_cases h4 : removeOk "UTRs_temp.txt".data <;>
                simp_all [hba, hab]

/-- C5 witness: with both temp files present, a body that raised, and
removals that succeed only for the seed table, the batch outcome passes
through, the seed table is gone, and the target-table failure is
reported. -/
theorem orchestrate_cleanup_witness :
    (orchestrate (Except.error PyErr.stopIteration)
        (fun g => g = "miR_seeds_temp.txt".data) (fun _ => true)).1 =
      Except.error PyErr.stopIteration ∧
    (orchestrate (Except.error PyErr.stopIteration)
        (fun g => g = "miR_seeds_temp.txt".data) (fun _ => true)).2.1
      "miR_seeds_temp.txt".data = false ∧
    cleanupFailMsg "UTRs_temp.txt".data ∈
      (orchestrate (Except.error PyErr.stopIteration)
        (fun g => g = "miR_seeds_temp.txt".data) (fun _ => true)).2.2 :=
  ⟨(orchestrate_cleanup (Except.error PyErr.stopIteration)
      (fun g => g = "miR_seeds_temp.txt".data) (fun _ => true)).1,
   (orchestrate_cleanup (Except.error PyErr.stopIteration)
      (fun g => g = "miR_seeds_temp.txt".data) (fun _ => true)).2.1
     "miR_seeds_temp.txt".data (by decide) (by decide),
   (orchestrate_cleanup (Except.error PyErr.stopIteration)
      (fun g => g = "miR_seeds_temp.txt".data) (fun _ => true)).2.2
     "UTRs_temp.txt".data (by decide) rfl (by decide)⟩

/-- C6: a two-line output table — a header followed by one data row with
at least nine tab-separated columns whose fourth column reads 10, fifth
reads 17 and ninth is 7mer-m8 — parses to exactly one feature, with
start 10, end 17, strand +1, color #ff66cc, and no diagnostics. -/
theorem readFeatures_wellFormed_row (header row c1 c3 c4 c8 : List Char)
    (h1 : (splitTab (pyStrip row)).get? 1 = some c1)
    (h3 : (splitTab (pyStrip row)).get? 3 = some c3)
    (h4 : (splitTab (pyStrip row)).get? 4 = some c4)
    (h8 : (splitTab (pyStrip row)).get? 8 = some c8)
    (hi3 : pyInt c3 = some 10) (hi4 : pyInt c4 = some 17)
    (hm : c8 = "7mer-m8".data) :
    readFeatures [header, row] =
      Except.ok ([{ start := 10, end_ := 17, strand := 1,
                    color := "#ff66cc".data, label := subMmu c1 }], []) := by
  have hcol : get_color "7mer-m8".data = "#ff66cc".data := by decide
  simp only [List.get?_eq_getElem?] at h1 h3 h4 h8
  have hrow : parseRow row =
      some { start := 10, end_ := 17, strand := 1,
             color := "#ff66cc".data, label := subMmu c1 } := by
    rw [parseRow]
    simp [h1, h3, h4, h8, hi3, hi4, hm, hcol]
  simp [readFeatures, parseLines, hrow]

/-- C6 witness: the parse at a concrete header and data row. -/
theorem readFeatures_wellFormed_row_witness :
    readFeatures
        ["Gene_ID\ta_miRNA_family_ID".data,
         "tgt\tmmu-miR-1\tx\t10\t17\ty\tz\tw\t7mer-m8".data] =
      Except.ok ([{ start := 10, end_ := 17, strand := 1,
                    color := "#ff66cc".data,
                    label := subMmu "mmu-miR-1".data }], []) :=
  readFeatures_wellFormed_row "Gene_ID\ta_miRNA_family_ID".data
    "tgt\tmmu-miR-1\tx\t10\t17\ty\tz\tw\t7mer-m8".data
    "mmu-miR-1".data "10".data "17".data "7mer-m8".data
    (by decide) (by decide) (by decide) (by decide)
    (by decide) (by decide) (by decide)

/-- Unfolding one step of the line loop. -/
theorem parseLines_cons (line : List Char) (rest : List (List Char)) :
    parseLines (line :: rest) =
      match parseRow line with
      | some f => (f :: (parseLines rest).1, (parseLines rest).2)
      | none => ((parseLines rest).1,
          ("解析行错误: ".data ++ pyStrip line) :: (parseLines rest).2) := by
  cases hx : parseRow line <;> simp [parseLines, hx]

/-- Splitting the data lines in two pieces splits both the features and
the diagnostics, in order. -/
theorem parseLines_append (xs ys : List (List Char)) :
    parseLines (xs ++ ys) =
      ((parseLines xs).1 ++ (parseLines ys).1,
       (parseLines xs).2 ++ (parseLines ys).2) := by
  induction xs with
  | nil => simp [parseLines]
  | cons x xs ih =>
    rw [List.cons_append, parseLines_cons, parseLines_cons, ih]
    cases parseRow x <;> simp

/-- C7: a data row that fails to parse — too few columns, or a
non-integer start or end — contributes no feature and exactly one
diagnostic message, and the features of the rows before and after it are
unchanged and keep their file order. -/
theorem parseLines_bad_row (pre post : List (List Char)) (bad : List Char)
    (hbad : parseRow bad = none) :
    parseLines (pre ++ bad :: post) =
      ((parseLines pre).1 ++ (parseLines post).1,
       (parseLines pre).2 ++
         ("解析行错误: ".data ++ pyStrip bad) :: (parseLines post).2) := by
  rw [parseLines_append]
  simp [parseLines, hbad]

/-- C7 witness: a row whose start column is not an integer, between two
well-formed rows. -/
theorem parseLines_bad_row_witness :
    parseLines
        (["tgt\tmmu-miR-1\tx\t10\t17\ty\tz\tw\t7mer-m8".data] ++
          "tgt\tmmu-miR-2\tx\tNA\t30\ty\tz\tw\t6mer".data ::
            ["tgt\tmmu-miR-3\tx\t40\t47\ty\tz\tw\t8mer-1a".data]) =
      ((parseLines ["tgt\tmmu-miR-1\tx\t10\t17\ty\tz\tw\t7mer-m8".data]).1 ++
         (parseLines ["tgt\tmmu-miR-3\tx\t40\t47\ty\tz\tw\t8mer-1a".data]).1,
       (parseLines ["tgt\tmmu-miR-1\tx\t10\t17\ty\tz\tw\t7mer-m8".data]).2 ++
         ("解析行错误: ".data ++
             pyStrip "tgt\tmmu-miR-2\tx\tNA\t30\ty\tz\tw\t6mer".data) ::
           (parseLines
             ["tgt\tmmu-miR-3\tx\t40\t47\ty\tz\tw\t8mer-1a".data]).2) :=
  parseLines_bad_row ["tgt\tmmu-miR-1\tx\t10\t17\ty\tz\tw\t7mer-m8".data]
    ["tgt\tmmu-miR-3\tx\t40\t47\ty\tz\tw\t8mer-1a".data]
    "tgt\tmmu-miR-2\tx\tNA\t30\ty\tz\tw\t6mer".data (by decide)
